import Mathlib

/-!
Verification of the screen-ai application (`src/main.py`) against its
natural-language specification.

The program is a single-file Qt application: a hotkey triggers
`ScreenAI.capture_and_process`, which captures a screenshot
(`ScreenCapture.capture_and_save`), runs OCR over it
(`OCRProcessor.process`), and starts a voice assistant session
(`VapiManager.start`), updating a three-valued phase string
(`self.state`, one of "idle" / "loading" / "talking") along the way.

The external collaborators (screen grab, HTTP API, voice SDK, process
environment) are modelled as oracles: a `Collaborators` record supplies
the outcome each collaborator would produce, exactly as a mocked
collaborator would in a test harness.  The orchestration logic itself is
translated line by line from `capture_and_process`, including Python
truthiness (`if screenshot_path:` is false for both `None` and the empty
string) and the absence of any exception handler around
`VapiManager.start`.
-/

/-- Python truthiness of an optional string: `None` and `""` are falsy.
Mirrors `if not getattr(self, var)` in `Config.validate`. -/
def pyFalsy : Option String → Bool
  | none => true
  | some s => s == ""

/-! ## Configuration and startup (main.py lines 30-51, 140-149, 221-224) -/

/-- The relevant process environment: the three variables read by
`Config.__init__` via `os.getenv`.  `none` models an unset variable. -/
structure Env where
  OPENAI_API_KEY : Option String
  VAPI_API_KEY : Option String
  VAPI_ASSISTANT_ID : Option String
deriving Repr, DecidableEq

namespace Config

/-- `Config.validate`: the list of missing required variables, in the
order the Python loop checks them (`openai_api_key`, then
`vapi_api_key`).  A variable is missing when its value is falsy. -/
def missing_vars (env : Env) : List String :=
  (if pyFalsy env.OPENAI_API_KEY then ["openai_api_key"] else []) ++
  (if pyFalsy env.VAPI_API_KEY then ["vapi_api_key"] else [])

/-- `config.vapi_assistant_id`: `os.getenv` with a literal default. -/
def vapi_assistant_id (env : Env) : String :=
  env.VAPI_ASSISTANT_ID.getD "ea8c30ba-4efb-4b3a-b3fa-9cd37a821300"

end Config

/-- Outcome of program startup.  `Config` is instantiated at module load
(line 51), so validation runs before `ScreenAI.__init__` ever calls
`UIManager.setup`, which is where the `Ctrl+Shift+O` shortcut is
registered (lines 146-148). -/
inductive StartupOutcome where
  /-- `sys.exit(code)` fired during `Config.validate`; the flag records
  whether the hotkey had been registered at that point (it never is). -/
  | exited (code : Nat) (hotkeyRegistered : Bool)
  /-- Startup completed; the recorded string is the registered shortcut. -/
  | running (hotkey : String)
deriving Repr, DecidableEq

/-- Startup of the process: module-level `config = Config()` (which may
`sys.exit(1)`), then `ScreenAI()` whose `UIManager.setup` registers the
shortcut. -/
def mainStartup (env : Env) : StartupOutcome :=
  if Config.missing_vars env = [] then
    StartupOutcome.running "Ctrl+Shift+O"
  else
    StartupOutcome.exited 1 false

/-! ## VapiManager (main.py lines 120-132) -/

/-- The `assistant_overrides` dictionary built by `VapiManager.start`:
a `variableValues` mapping, here a literal association list. -/
structure AssistantOverrides where
  variableValues : List (String × String)
deriving Repr, DecidableEq

/-- A record of one call to `self.vapi.start(...)`. -/
structure VapiStartCall where
  assistant_id : String
  assistant_overrides : AssistantOverrides
deriving Repr, DecidableEq

namespace VapiManager

/-- `VapiManager.start`: builds the overrides carrying the screen data
under the single key `"screendata"` and calls the SDK. -/
def start (aid : String) (screen_data : String) : VapiStartCall :=
  { assistant_id := aid
  , assistant_overrides := { variableValues := [("screendata", screen_data)] } }

end VapiManager

/-! ## OCRProcessor (main.py lines 76-118) -/

/-- The request payload built by `OCRProcessor.process` (lines 88-110):
model name, the fixed instruction text, the data-URI image part, and the
response token cap. -/
structure OcrPayload where
  model : String
  prompt_text : String
  image_url : String
  max_tokens : Nat
deriving Repr, DecidableEq

/-- Builds the payload exactly as lines 88-110 do, given the
base64-encoded image. -/
def build_payload (encoded_image : String) : OcrPayload :=
  { model := "gpt-4-turbo"
  , prompt_text := "Give a summary of what\x27s in the image after \x27SUMMARY:\x27 and give full OCR exactly and correctly without any missing details after \x27OCR:\x27"
  , image_url := "data:image/jpeg;base64," ++ encoded_image
  , max_tokens := 300 }

/-- `response.json()['choices'][i]['message']` of the completion API. -/
structure ApiMessage where
  content : String
deriving Repr, DecidableEq

/-- One element of `response.json()['choices']`. -/
structure ApiChoice where
  message : ApiMessage
deriving Repr, DecidableEq

/-- The parsed JSON body of the completion response; `choices` may be
empty (indexing it then raises, caught by the handler). -/
structure ApiBody where
  choices : List ApiChoice
deriving Repr, DecidableEq

/-- An HTTP response from `requests.post`: a status code and a body,
`none` standing for a body in which the expected fields are missing. -/
structure HttpResponse where
  status : Nat
  body : Option ApiBody
deriving Repr, DecidableEq

namespace OCRProcessor

/-- `OCRProcessor.process`.  `encoded_image` is the outcome of opening
the screenshot and base64-encoding it (`none`: the read raised).  `api`
is the network oracle: the response `requests.post` produces for a given
payload, `none` standing for a raised network error.  Every failure is
caught by the surrounding `try`/`except` and becomes `none`
(`return None`, line 118).  `raise_for_status` (line 113) raises for
status codes of 400 and above. -/
def process (encoded_image : Option String)
    (api : OcrPayload → Option HttpResponse) : Option String :=
  match encoded_image with
  | none => none
  | some img =>
    match api (build_payload img) with
    | none => none
    | some resp =>
      if 400 ≤ resp.status then none
      else
        match resp.body with
        | none => none
        | some body =>
          match body.choices with
          | [] => none
          | c :: _ => some c.message.content

end OCRProcessor

/-! ## The orchestrator: ScreenAI.capture_and_process (main.py 203-219) -/

/-- The mocked collaborators of one cycle, exactly the interfaces the
orchestrator calls: the screenshot path `ScreenCapture.capture_and_save`
returns (`none` on failure), the text `OCRProcessor.process` returns for
a given path (`none` on failure), whether `self.vapi.start` succeeds for
a given screen data (`false`: it raises), and the configured assistant
id. -/
structure Collaborators where
  capture_and_save : Option String
  ocr_process : String → Option String
  vapi_start_ok : String → Bool
  vapi_assistant_id : String

/-- The observable record of one run of `capture_and_process`: the
successive values passed to `UIManager.update_state` (the phase trace of
the run), how many times the Capturer was invoked, the paths passed to
`OCRProcessor.process`, the calls made to `vapi.start`, and whether an
exception escaped the method. -/
structure CycleResult where
  states : List String
  captureCalls : Nat
  ocrCalls : List String
  vapiCalls : List VapiStartCall
  raised : Bool
deriving Repr, DecidableEq

/-- `ScreenAI.capture_and_process`, translated clause by clause:

* line 206: `update_state('loading')` — unconditionally, whatever the
  current state is (the method never reads `self.state`);
* line 207: `capture_and_save()`;
* line 208: `if screenshot_path:` — falsy for `None` and for `""`;
* line 209: `ocr_processor.process(screenshot_path)`;
* line 210: `if screen_data:` — falsy for `None` and for `""`;
* lines 211-212: `update_state('talking')` and then
  `vapi_assistant.start(screen_data)`; there is no `try`/`except` here
  nor inside `VapiManager.start`, so if the SDK call raises, the
  exception escapes with the state left at `"talking"`;
* lines 214-219: on a falsy path or falsy OCR result,
  `update_state('idle')`. -/
def capture_and_process (self : Collaborators) : CycleResult :=
  match self.capture_and_save with
  | none =>
    { states := ["loading", "idle"], captureCalls := 1
    , ocrCalls := [], vapiCalls := [], raised := false }
  | some screenshot_path =>
    if screenshot_path = "" then
      { states := ["loading", "idle"], captureCalls := 1
      , ocrCalls := [], vapiCalls := [], raised := false }
    else
      match self.ocr_process screenshot_path with
      | none =>
        { states := ["loading", "idle"], captureCalls := 1
        , ocrCalls := [screenshot_path], vapiCalls := [], raised := false }
      | some screen_data =>
        if screen_data = "" then
          { states := ["loading", "idle"], captureCalls := 1
          , ocrCalls := [screenshot_path], vapiCalls := [], raised := false }
        else
          { states := ["loading", "talking"], captureCalls := 1
          , ocrCalls := [screenshot_path]
          , vapiCalls := [VapiManager.start self.vapi_assistant_id screen_data]
          , raised := !self.vapi_start_ok screen_data }

/-- The phase after a trigger fired in phase `s`: the last state set by
the run (the run always sets at least one state, so the default `s` is
never used). -/
def phaseAfterTrigger (s : String) (c : Collaborators) : String :=
  (capture_and_process c).states.getLastD s

/-- The full observed sequence of phase values over a sequence of
trigger events, each trigger `i` serviced with collaborator outcomes
`runs[i]`: the initial `'idle'` set by `ScreenAI.__init__` (line 190)
followed by every value passed to `update_state`.  Triggers are
dispatched by the single-threaded Qt event loop, so runs are
sequential. -/
def phaseTrace (runs : List Collaborators) : List String :=
  "idle" :: runs.flatMap (fun c => (capture_and_process c).states)

/-- Adjacent pairs of a list: the phase transitions observed along a
phase sequence. -/
def transitions : List String → List (String × String)
  | a :: b :: rest => (a, b) :: transitions (b :: rest)
  | _ => []

/-! ## Basic shape lemmas -/

theorem transitions_cons_cons (a b : String) (l : List String) :
    transitions (a :: b :: l) = (a, b) :: transitions (b :: l) := rfl

/-- Every run invokes the Capturer exactly once and produces exactly one
of two phase traces: `["loading", "talking"]` or `["loading", "idle"]`. -/
theorem cycle_shape (c : Collaborators) :
    (capture_and_process c).captureCalls = 1 ∧
    ((capture_and_process c).states = ["loading", "talking"] ∨
     (capture_and_process c).states = ["loading", "idle"]) := by
  unfold capture_and_process
  cases hc : c.capture_and_save with
  | none => exact ⟨rfl, Or.inr rfl⟩
  | some p =>
    dsimp only
    by_cases hp : p = ""
    · rw [if_pos hp]; exact ⟨rfl, Or.inr rfl⟩
    · rw [if_neg hp]
      cases ho : c.ocr_process p with
      | none => exact ⟨rfl, Or.inr rfl⟩
      | some t =>
        dsimp only
        by_cases ht : t = ""
        · rw [if_pos ht]; exact ⟨rfl, Or.inr rfl⟩
        · rw [if_neg ht]; exact ⟨rfl, Or.inl rfl⟩

theorem states_cases (c : Collaborators) :
    (capture_and_process c).states = ["loading", "talking"] ∨
    (capture_and_process c).states = ["loading", "idle"] :=
  (cycle_shape c).2

/-- `∃`-form of `states_cases`, convenient for induction. -/
theorem states_shape (c : Collaborators) :
    ∃ x, (capture_and_process c).states = ["loading", x] ∧
      (x = "talking" ∨ x = "idle") := by
  rcases states_cases c with h | h
  · exact ⟨"talking", h, Or.inl rfl⟩
  · exact ⟨"idle", h, Or.inr rfl⟩

/-- The four phase transitions the code can actually produce: every
trigger handler run first sets `"loading"` (from whatever phase it was
dispatched in, which is `"idle"` or `"talking"`), then `"talking"` or
`"idle"`. -/
def allowedTransitions : List (String × String) :=
  [("idle", "loading"), ("talking", "loading"),
   ("loading", "talking"), ("loading", "idle")]

theorem transitions_allowed_aux (runs : List Collaborators) :
    ∀ s, (s = "idle" ∨ s = "talking") →
      ∀ t ∈ transitions
          (s :: runs.flatMap (fun c => (capture_and_process c).states)),
        t ∈ allowedTransitions := by
  induction runs with
  | nil =>
    intro s _ t ht
    simp [transitions] at ht
  | cons c rest ih =>
    intro s hs t ht
    obtain ⟨x, hx, hxm⟩ := states_shape c
    rw [List.flatMap_cons, hx] at ht
    simp only [List.cons_append, List.nil_append] at ht
    rw [transitions_cons_cons, transitions_cons_cons] at ht
    rcases List.mem_cons.mp ht with rfl | ht
    · rcases hs with rfl | rfl <;> decide
    · rcases List.mem_cons.mp ht with rfl | ht
      · rcases hxm with rfl | rfl <;> decide
      · exact ih x hxm.symm t ht

/-! ## Concrete collaborator instances (mocks used as test inputs) -/

/-- An environment with both required keys set to non-empty values. -/
def envFull : Env :=
  { OPENAI_API_KEY := some "sk-test-openai"
  , VAPI_API_KEY := some "vapi-test-key"
  , VAPI_ASSISTANT_ID := none }

/-- An environment missing `OPENAI_API_KEY`. -/
def envMissingOpenai : Env :=
  { OPENAI_API_KEY := none
  , VAPI_API_KEY := some "vapi-test-key"
  , VAPI_ASSISTANT_ID := none }

/-- An environment missing `VAPI_API_KEY`. -/
def envMissingVapi : Env :=
  { OPENAI_API_KEY := some "sk-test-openai"
  , VAPI_API_KEY := none
  , VAPI_ASSISTANT_ID := none }

/-- The recognized text of the spec's mocked-collaborator scenario. -/
def mockOcrText : String := "SUMMARY: cat\nOCR: cat"

/-- Mocks for a fully successful run: capture returns the usual
`screenshot.jpg` path, OCR returns `mockOcrText`, the SDK call
succeeds. -/
def colsFullSuccess : Collaborators :=
  { capture_and_save := some "screenshot.jpg"
  , ocr_process := fun _ => some mockOcrText
  , vapi_start_ok := fun _ => true
  , vapi_assistant_id := Config.vapi_assistant_id envFull }

/-- Mocks where `ScreenCapture.capture_and_save` fails (returns `None`). -/
def colsCaptureFail : Collaborators :=
  { colsFullSuccess with capture_and_save := none }

/-- Mocks where `OCRProcessor.process` fails (returns `None`). -/
def colsOcrFail : Collaborators :=
  { colsFullSuccess with ocr_process := fun _ => none }

/-- Mocks where `OCRProcessor.process` succeeds with the empty string. -/
def colsOcrEmpty : Collaborators :=
  { colsFullSuccess with ocr_process := fun _ => some "" }

/-- Mocks where `self.vapi.start` raises. -/
def colsVapiFail : Collaborators :=
  { colsFullSuccess with vapi_start_ok := fun _ => false }

/-! ## Evaluation lemmas: one per control path of `capture_and_process` -/

theorem getLastD_pair (a b d : String) : List.getLastD [a, b] d = b := rfl

/-- Path of lines 217-219: the Capturer returned `None`. -/
theorem capture_and_process_capture_fail (c : Collaborators)
    (hc : c.capture_and_save = none) :
    capture_and_process c =
      { states := ["loading", "idle"], captureCalls := 1
      , ocrCalls := [], vapiCalls := [], raised := false } := by
  unfold capture_and_process
  rw [hc]

/-- Path of lines 214-216: the Recognizer returned `None`. -/
theorem capture_and_process_ocr_fail (c : Collaborators) (p : String)
    (hc : c.capture_and_save = some p) (hp : p ≠ "")
    (ho : c.ocr_process p = none) :
    capture_and_process c =
      { states := ["loading", "idle"], captureCalls := 1
      , ocrCalls := [p], vapiCalls := [], raised := false } := by
  unfold capture_and_process
  rw [hc]
  dsimp only
  rw [if_neg hp, ho]

/-- Path of lines 214-216 again: the Recognizer returned the empty
string, which `if screen_data:` treats exactly like `None`. -/
theorem capture_and_process_ocr_empty (c : Collaborators) (p : String)
    (hc : c.capture_and_save = some p) (hp : p ≠ "")
    (ho : c.ocr_process p = some "") :
    capture_and_process c =
      { states := ["loading", "idle"], captureCalls := 1
      , ocrCalls := [p], vapiCalls := [], raised := false } := by
  unfold capture_and_process
  rw [hc]
  dsimp only
  rw [if_neg hp, ho]
  rfl

/-- Path of lines 211-213: capture and OCR both produced truthy values,
so the state is set to `"talking"` and `vapi.start` is called; whether
an exception escapes depends only on that SDK call. -/
theorem capture_and_process_success (c : Collaborators) (p t : String)
    (hc : c.capture_and_save = some p) (hp : p ≠ "")
    (ho : c.ocr_process p = some t) (ht : t ≠ "") :
    capture_and_process c =
      { states := ["loading", "talking"], captureCalls := 1
      , ocrCalls := [p]
      , vapiCalls := [VapiManager.start c.vapi_assistant_id t]
      , raised := !c.vapi_start_ok t } := by
  unfold capture_and_process
  rw [hc]
  dsimp only
  rw [if_neg hp, ho]
  dsimp only
  rw [if_neg ht]

/-! ## Claim C1 -/

/-- C1 fails on the code: the `Ctrl+Shift+O` shortcut is connected
directly to `capture_and_process` (line 148), which never reads
`self.state`.  Concretely, a trigger dispatched while the phase is
`"talking"` (with the capture failing) does start a new cycle — the
Capturer is invoked and the state is set — and leaves the phase at
`"idle"`, not `"talking"`. -/
theorem C1_counterexample :
    ¬ ((capture_and_process colsCaptureFail).captureCalls = 0 ∧
       (capture_and_process colsCaptureFail).states = [] ∧
       phaseAfterTrigger "talking" colsCaptureFail = "talking") := by
  decide

/-- C1 (amended): a trigger received while Phase is not Idle is handled
exactly as one received while Idle — `capture_and_process` never
consults the current phase, so it invokes the Capturer once, immediately
sets Phase to Loading, and ends in the same phase it would have ended in
from Idle. -/
theorem C1_trigger_not_gated (s : String) (c : Collaborators)
    (_hs : s ≠ "idle") :
    (capture_and_process c).captureCalls = 1 ∧
    (capture_and_process c).states.head? = some "loading" ∧
    phaseAfterTrigger s c = phaseAfterTrigger "idle" c := by
  obtain ⟨hcap, hst⟩ := cycle_shape c
  refine ⟨hcap, ?_, ?_⟩
  · rcases hst with h | h <;> rw [h] <;> rfl
  · unfold phaseAfterTrigger
    rcases hst with h | h <;> rw [h] <;>
      exact (getLastD_pair _ _ _).trans (getLastD_pair _ _ _).symm

theorem C1_trigger_not_gated_witness :
    (capture_and_process colsCaptureFail).captureCalls = 1 ∧
    (capture_and_process colsCaptureFail).states.head? = some "loading" ∧
    phaseAfterTrigger "talking" colsCaptureFail =
      phaseAfterTrigger "idle" colsCaptureFail :=
  C1_trigger_not_gated "talking" colsCaptureFail (by decide)

/-! ## Claim C2 -/

/-- C2 fails on the code: neither `capture_and_process` (lines 211-212)
nor `VapiManager.start` (lines 124-132) wraps the SDK call in
`try`/`except`.  With capture and OCR succeeding and `vapi.start`
raising, the exception escapes the orchestrator and the phase stays
`"talking"` instead of returning to `"idle"`. -/
theorem C2_counterexample :
    ¬ ((capture_and_process colsVapiFail).raised = false ∧
       phaseAfterTrigger "idle" colsVapiFail = "idle") := by
  decide

/-- C2 (amended): when Capturer and Recognizer succeed but
`vapi.start` fails, the failure is NOT caught by the orchestrator: the
exception escapes `capture_and_process` and Phase remains Talking (no
transition back to Idle occurs). -/
theorem C2_vapi_failure_uncaught (c : Collaborators) (p t : String)
    (hc : c.capture_and_save = some p) (hp : p ≠ "")
    (ho : c.ocr_process p = some t) (ht : t ≠ "")
    (hv : c.vapi_start_ok t = false) :
    (capture_and_process c).raised = true ∧
    ∀ s, phaseAfterTrigger s c = "talking" := by
  have he := capture_and_process_success c p t hc hp ho ht
  refine ⟨?_, fun s => ?_⟩
  · rw [he]
    show (!c.vapi_start_ok t) = true
    rw [hv]
    rfl
  · unfold phaseAfterTrigger
    rw [he]
    exact getLastD_pair _ _ _

theorem C2_vapi_failure_uncaught_witness :
    (capture_and_process colsVapiFail).raised = true ∧
    phaseAfterTrigger "idle" colsVapiFail = "talking" :=
  ⟨(C2_vapi_failure_uncaught colsVapiFail "screenshot.jpg" mockOcrText
      rfl (by decide) rfl (by decide) rfl).1,
   (C2_vapi_failure_uncaught colsVapiFail "screenshot.jpg" mockOcrText
      rfl (by decide) rfl (by decide) rfl).2 "idle"⟩

/-! ## Claims C4 and C5 -/

/-- C4: when the Capturer fails (returns `None`), neither the Recognizer
nor `vapi.start` is invoked in that cycle, no exception escapes, and the
phase ends at `"idle"` whatever it was. -/
theorem C4_capture_failure (c : Collaborators)
    (hc : c.capture_and_save = none) :
    (capture_and_process c).ocrCalls = [] ∧
    (capture_and_process c).vapiCalls = [] ∧
    (capture_and_process c).raised = false ∧
    ∀ s, phaseAfterTrigger s c = "idle" := by
  have he := capture_and_process_capture_fail c hc
  refine ⟨by rw [he], by rw [he], by rw [he], fun s => ?_⟩
  unfold phaseAfterTrigger
  rw [he]
  exact getLastD_pair _ _ _

theorem C4_capture_failure_witness :
    (capture_and_process colsCaptureFail).ocrCalls = [] ∧
    (capture_and_process colsCaptureFail).vapiCalls = [] ∧
    (capture_and_process colsCaptureFail).raised = false ∧
    ∀ s, phaseAfterTrigger s colsCaptureFail = "idle" :=
  C4_capture_failure colsCaptureFail rfl

/-- C5: when the Capturer succeeds with a truthy path but the Recognizer
fails (returns `None`), `vapi.start` is not invoked in that cycle, no
exception escapes, and the phase ends at `"idle"`. -/
theorem C5_recognizer_failure (c : Collaborators) (p : String)
    (hc : c.capture_and_save = some p) (hp : p ≠ "")
    (ho : c.ocr_process p = none) :
    (capture_and_process c).vapiCalls = [] ∧
    (capture_and_process c).raised = false ∧
    ∀ s, phaseAfterTrigger s c = "idle" := by
  have he := capture_and_process_ocr_fail c p hc hp ho
  refine ⟨by rw [he], by rw [he], fun s => ?_⟩
  unfold phaseAfterTrigger
  rw [he]
  exact getLastD_pair _ _ _

theorem C5_recognizer_failure_witness :
    (capture_and_process colsOcrFail).vapiCalls = [] ∧
    (capture_and_process colsOcrFail).raised = false ∧
    ∀ s, phaseAfterTrigger s colsOcrFail = "idle" :=
  C5_recognizer_failure colsOcrFail "screenshot.jpg" rfl (by decide) rfl

/-! ## Claim C3 -/

/-- The three transitions the claim (and spec section 8) allows. -/
def claimedTransitions : List (String × String) :=
  [("idle", "loading"), ("loading", "talking"), ("loading", "idle")]

/-- C3 fails on the code: after a fully successful cycle the phase is
`"talking"`, and the next trigger — serviced unconditionally — sets it
to `"loading"`, an observed transition Talking→Loading outside the
claimed set.  Concretely, two triggers (a full success, then a capture
failure) produce the phase sequence
`["idle", "loading", "talking", "loading", "idle"]`. -/
theorem C3_counterexample :
    ¬ (∀ t ∈ transitions (phaseTrace [colsFullSuccess, colsCaptureFail]),
        t ∈ claimedTransitions) := by
  decide

/-- C3 (amended): over every sequence of trigger events the observed
transitions are exactly drawn from Idle→Loading, Talking→Loading,
Loading→Talking and Loading→Idle; in particular Phase never goes
directly from Idle to Talking (Loading is never skipped). -/
theorem C3_transitions (runs : List Collaborators) :
    (∀ t ∈ transitions (phaseTrace runs), t ∈ allowedTransitions) ∧
    ("idle", "talking") ∉ transitions (phaseTrace runs) := by
  have h := transitions_allowed_aux runs "idle" (Or.inl rfl)
  exact ⟨h, fun hm => absurd (h _ hm) (by decide)⟩

theorem C3_transitions_witness :
    ("talking", "loading") ∈ allowedTransitions ∧
    ("idle", "talking") ∉ transitions (phaseTrace [colsFullSuccess, colsCaptureFail]) :=
  ⟨(C3_transitions [colsFullSuccess, colsCaptureFail]).1
      ("talking", "loading") (by decide),
   (C3_transitions [colsFullSuccess, colsCaptureFail]).2⟩

/-! ## Claim C6 -/

/-- C6: if either required key is unset, startup exits with status 1
before the hotkey is registered; if both are set to truthy (non-empty)
values, startup proceeds to register the `Ctrl+Shift+O` shortcut. -/
theorem C6_startup_validation (env : Env) :
    ((env.OPENAI_API_KEY = none ∨ env.VAPI_API_KEY = none) →
      mainStartup env = StartupOutcome.exited 1 false) ∧
    (pyFalsy env.OPENAI_API_KEY = false → pyFalsy env.VAPI_API_KEY = false →
      mainStartup env = StartupOutcome.running "Ctrl+Shift+O") := by
  constructor
  · intro h
    rcases h with h | h <;>
      simp [mainStartup, Config.missing_vars, pyFalsy, h]
  · intro h1 h2
    unfold mainStartup Config.missing_vars
    rw [h1, h2]
    rfl

theorem C6_startup_validation_witness :
    mainStartup envMissingOpenai = StartupOutcome.exited 1 false ∧
    mainStartup envMissingVapi = StartupOutcome.exited 1 false ∧
    mainStartup envFull = StartupOutcome.running "Ctrl+Shift+O" :=
  ⟨(C6_startup_validation envMissingOpenai).1 (Or.inl rfl),
   (C6_startup_validation envMissingVapi).1 (Or.inr rfl),
   (C6_startup_validation envFull).2 rfl rfl⟩

/-! ## Claim C7 -/

/-- C7 fails on the code as universally stated: when the Recognizer
succeeds but its text `T` is the empty string, `if screen_data:`
(line 210) is false and `vapi.start` is not invoked at all, rather than
exactly once with `T`. -/
theorem C7_counterexample :
    colsOcrEmpty.capture_and_save = some "screenshot.jpg" ∧
    colsOcrEmpty.ocr_process "screenshot.jpg" = some "" ∧
    ¬ (capture_and_process colsOcrEmpty).vapiCalls.length = 1 := by
  decide

/-- C7 (amended): for every run in which the Capturer returns a truthy
path `p` and the Recognizer returns a non-empty text `t` for `p`,
`vapi.start` is invoked exactly once, with `t` passed unmodified as the
value of the single named template variable `"screendata"` in the
assistant overrides. -/
theorem C7_vapi_payload (c : Collaborators) (p t : String)
    (hc : c.capture_and_save = some p) (hp : p ≠ "")
    (ho : c.ocr_process p = some t) (ht : t ≠ "") :
    (capture_and_process c).vapiCalls =
      [{ assistant_id := c.vapi_assistant_id
       , assistant_overrides := { variableValues := [("screendata", t)] } }] := by
  rw [capture_and_process_success c p t hc hp ho ht]
  rfl

theorem C7_vapi_payload_witness :
    (capture_and_process colsFullSuccess).vapiCalls =
      [{ assistant_id := colsFullSuccess.vapi_assistant_id
       , assistant_overrides :=
           { variableValues := [("screendata", "SUMMARY: cat\nOCR: cat")] } }] :=
  C7_vapi_payload colsFullSuccess "screenshot.jpg" "SUMMARY: cat\nOCR: cat"
    rfl (by decide) rfl (by decide)

/-! ## Claim C8 -/

/-- C8: whenever the completion call succeeds (2xx/3xx status, parsable
body with a non-empty `choices` array), `OCRProcessor.process` returns
exactly the raw `content` of the first choice's message, and the single
request it issued carries `max_tokens = 300`. -/
theorem C8_ocr_first_choice (img : String)
    (api : OcrPayload → Option HttpResponse)
    (resp : HttpResponse) (body : ApiBody) (c : ApiChoice)
    (cs : List ApiChoice)
    (hapi : api (build_payload img) = some resp)
    (hstatus : resp.status < 400)
    (hbody : resp.body = some body)
    (hchoices : body.choices = c :: cs) :
    OCRProcessor.process (some img) api = some c.message.content ∧
    (build_payload img).max_tokens = 300 := by
  constructor
  · unfold OCRProcessor.process
    dsimp only
    rw [hapi]
    dsimp only
    rw [if_neg (by omega), hbody]
    dsimp only
    rw [hchoices]
  · rfl

/-- The mocked completion response of the witness scenario. -/
def mockApiResponse : HttpResponse :=
  { status := 200
  , body := some { choices := [{ message := { content := mockOcrText } }] } }

/-- The mocked network oracle of the witness scenario. -/
def mockApi : OcrPayload → Option HttpResponse := fun _ => some mockApiResponse

theorem C8_ocr_first_choice_witness :
    OCRProcessor.process (some "aGVsbG8=") mockApi = some mockOcrText ∧
    (build_payload "aGVsbG8=").max_tokens = 300 :=
  C8_ocr_first_choice "aGVsbG8=" mockApi mockApiResponse
    { choices := [{ message := { content := mockOcrText } }] }
    { message := { content := mockOcrText } } []
    rfl (by decide) rfl rfl

/-! ## Claim C9 -/

/-- C9: a Recognizer success carrying the empty string is treated
exactly like a failure: `vapi.start` is not invoked and the phase ends
the cycle at `"idle"`. -/
theorem C9_empty_text_is_failure (c : Collaborators) (p : String)
    (hc : c.capture_and_save = some p) (hp : p ≠ "")
    (ho : c.ocr_process p = some "") :
    (capture_and_process c).vapiCalls = [] ∧
    (capture_and_process c).raised = false ∧
    ∀ s, phaseAfterTrigger s c = "idle" := by
  have he := capture_and_process_ocr_empty c p hc hp ho
  refine ⟨by rw [he], by rw [he], fun s => ?_⟩
  unfold phaseAfterTrigger
  rw [he]
  exact getLastD_pair _ _ _

theorem C9_empty_text_is_failure_witness :
    (capture_and_process colsOcrEmpty).vapiCalls = [] ∧
    (capture_and_process colsOcrEmpty).raised = false ∧
    ∀ s, phaseAfterTrigger s colsOcrEmpty = "idle" :=
  C9_empty_text_is_failure colsOcrEmpty "screenshot.jpg" rfl (by decide) rfl

/-! ## Claim C10 -/

/-- C10: the observed phase sequence starts at `"idle"` (set by
`ScreenAI.__init__`, line 190) and every value it ever holds is one of
`"idle"`, `"loading"`, `"talking"` — the only values ever passed to
`UIManager.update_state`. -/
theorem C10_phase_domain (runs : List Collaborators) :
    (phaseTrace runs).head? = some "idle" ∧
    ∀ x ∈ phaseTrace runs, x = "idle" ∨ x = "loading" ∨ x = "talking" := by
  refine ⟨rfl, ?_⟩
  intro x hx
  unfold phaseTrace at hx
  rcases List.mem_cons.mp hx with rfl | hx
  · exact Or.inl rfl
  · obtain ⟨c, _, hxc⟩ := List.mem_flatMap.mp hx
    obtain ⟨y, hy, hym⟩ := states_shape c
    rw [hy] at hxc
    rcases List.mem_cons.mp hxc with rfl | hxc
    · exact Or.inr (Or.inl rfl)
    · rcases List.mem_cons.mp hxc with rfl | hxc
      · rcases hym with rfl | rfl
        · exact Or.inr (Or.inr rfl)
        · exact Or.inl rfl
      · exact absurd hxc (List.not_mem_nil x)

theorem C10_phase_domain_witness :
    (phaseTrace [colsFullSuccess]).head? = some "idle" ∧
    ("talking" = "idle" ∨ "talking" = "loading" ∨ "talking" = "talking") :=
  ⟨(C10_phase_domain [colsFullSuccess]).1,
   (C10_phase_domain [colsFullSuccess]).2 "talking" (by decide)⟩
